import Mathlib

/-!
# Verification of the mixed-chatbot repository specification

Shallow embedding of the Python code of the repository in Lean 4, covering:

* `rag_app/models/embedding_service.py` — the fallback hash-bucket text
  embedding (`embed_text`, `_simple_text_embedding`) and the cosine-similarity
  top-k search (`similarity_search`);
* `rag_app/document_store/local_document_store.py` — the SQLite-backed
  document table (`write_documents`, `delete_documents`, `count_documents`);
* `rag_app/data_ingestion/document_preprocessor.py` — the exception boundary
  of `preprocess_documents`;
* `rag_app/services/rag_service.py` — `index_documents`, `clear_index`,
  `query`;
* `rag_app/pipelines/query_pipeline.py` — `QueryPipeline.query` and the
  manual retrieval fallback;
* `src/BACKUP/app.py` — the rule-based physiotherapy chatbot (regex intent
  detection, entity extraction, slot-filling dialogue `get_response`).

Python text is modelled as `List Char`, Python floats as `ℚ` (with real-number
statements via `ℝ` where cosine similarity needs square roots), Python
exceptions as `Except String`.  External collaborators (haystack components,
the generative model, numpy internals) enter as explicit parameters or
oracles; everything written in the repository itself is translated directly.
-/

namespace MixedChatbot

/-! ## Text primitives (Python `str` as `List Char`) -/

/-- Python `\w` character class (ASCII reading): alphanumeric or underscore. -/
def isWordChar (c : Char) : Bool := c.isAlphanum || c = '_'

/-- Python `str.lower()`. -/
def lowerL (s : List Char) : List Char := s.map Char.toLower

/-- Python `str.strip()`: remove leading and trailing whitespace. -/
def stripL (s : List Char) : List Char :=
  ((s.dropWhile Char.isWhitespace).reverse.dropWhile Char.isWhitespace).reverse

/-- Scanner for `re.findall(r"\w+", text)`: `acc` holds the characters of the
word currently being read, in reverse. -/
def tokenizeAux : List Char → List Char → List (List Char)
  | [], acc => if acc = [] then [] else [acc.reverse]
  | c :: cs, acc =>
    if isWordChar c then tokenizeAux cs (c :: acc)
    else if acc = [] then tokenizeAux cs [] else acc.reverse :: tokenizeAux cs []

/-- Python `re.findall(r"\w+", text)`: the list of maximal runs of word
characters, in order. -/
def tokenize (s : List Char) : List (List Char) := tokenizeAux s []

/-! ## Embedding service (`rag_app/models/embedding_service.py`)

`_simple_text_embedding` hashes each token with `md5` and buckets it by
`% 384`.  The md5 digest itself lives outside the repository (the `hashlib` module of Python); it is modelled as an arbitrary function `md5val : List Char → ℕ`
— every claimed property is independent of the concrete digest. -/

/-- `embedding[pos] += 1.0` on a Python list. -/
def addAt : List ℚ → ℕ → List ℚ
  | [], _ => []
  | x :: xs, 0 => (x + 1) :: xs
  | x :: xs, n + 1 => x :: addAt xs n

/-- `EmbeddingService._simple_text_embedding` (embedding_service.py
lines 225-248): tokenize the lowercased text, accumulate one count per token
into one of 384 hash buckets, then L1-normalize when the total is positive. -/
def simple_text_embedding (md5val : List Char → ℕ) (text : List Char) : List ℚ :=
  let words := tokenize (lowerL text)
  let embedding := words.foldl (fun e w => addAt e (md5val w % 384)) (List.replicate 384 0)
  let total := embedding.sum
  if 0 < total then embedding.map (fun x => x / total) else embedding

/-- `EmbeddingService.embed_text` (embedding_service.py lines 58-88) in the
fallback (`_use_simple_embeddings`) configuration: empty or whitespace-only
text yields `[]`, otherwise the simple embedding of the stripped text. -/
def embed_text (md5val : List Char → ℕ) (text : List Char) : List ℚ :=
  if stripL text = [] then [] else simple_text_embedding md5val (stripL text)

/-! ## Cosine similarity search (`similarity_search`, lines 143-175)

`np.argsort(similarities)[::-1][:top_k]`: numpy sorts the similarity values
ascending (equal values keep index order), the slice reverses, so the ranking
is descending by similarity with ties broken by descending index.  Cosine
similarity of document `d` against query `q` is
`dot(d, q) / (‖d‖ * ‖q‖)`.  The ranking comparisons are expressed over `ℚ`
without square roots (`simGEb`), and proved equivalent to comparisons of the
real-valued cosine similarity for vectors of positive norm. -/

def dotQ (a b : List ℚ) : ℚ := (List.zipWith (fun x y => x * y) a b).sum

def norm2Q (a : List ℚ) : ℚ := dotQ a a

/-- Real cosine similarity of candidate `d` against query `q`, as computed at
embedding_service.py lines 163-165. -/
noncomputable def cosineSim (q d : List ℚ) : ℝ :=
  ((dotQ d q : ℚ) : ℝ) / (Real.sqrt ((norm2Q d : ℚ) : ℝ) * Real.sqrt ((norm2Q q : ℚ) : ℝ))

/-- Square-root-free comparison: `simGEb q a b = true` iff the cosine
similarity of `a` against `q` is at least that of `b` (for vectors of
positive squared norm; see `simGEb_eq_true_iff`). -/
def simGEb (q a b : List ℚ) : Bool :=
  let da := dotQ a q
  let db := dotQ b q
  if 0 ≤ da then
    if 0 ≤ db then decide (db * db * norm2Q a ≤ da * da * norm2Q b) else true
  else
    if 0 ≤ db then false else decide (da * da * norm2Q b ≤ db * db * norm2Q a)

/-- Comparator on candidate indices realising `argsort(sims)[::-1]`: index `i`
precedes index `j` iff the similarity of `i` is strictly larger, or the
similarities are equal and `i` is the larger index (the reversal of a stable
ascending sort puts the larger index first among ties). -/
def argCmp (q : List ℚ) (docs : List (List ℚ)) (i j : ℕ) : Bool :=
  let a := docs.getD i []
  let b := docs.getD j []
  (simGEb q a b && !simGEb q b a) || (simGEb q a b && simGEb q b a && decide (j < i))

/-- Insert one index into an already-ranked list of indices. -/
def insertRanked (r : ℕ → ℕ → Bool) (x : ℕ) : List ℕ → List ℕ
  | [] => [x]
  | y :: ys => if r x y then x :: y :: ys else y :: insertRanked r x ys

/-- Rank a list of indices by the comparator (insertion sort). -/
def rankBy (r : ℕ → ℕ → Bool) : List ℕ → List ℕ
  | [] => []
  | x :: xs => insertRanked r x (rankBy r xs)

/-- `EmbeddingService.similarity_search` (embedding_service.py lines 143-175):
empty query or empty candidate list yields `[]`; otherwise the candidate
indices ranked by descending cosine similarity (ties: descending index),
truncated to `top_k`. -/
def similarity_search (query_embedding : List ℚ) (document_embeddings : List (List ℚ))
    (top_k : ℕ) : List ℕ :=
  if query_embedding = [] ∨ document_embeddings = [] then []
  else
    (rankBy (argCmp query_embedding document_embeddings)
      (List.range document_embeddings.length)).take top_k

/-! ## Local document store (`rag_app/document_store/local_document_store.py`)

The SQLite `documents` table is modelled as an association list from the
primary-key id to the stored row.  The haystack `InMemoryDocumentStore`
mirror is an external collaborator; the persisted table is what
`count_documents` counts.  Failures of the backing stores are modelled by an
`Except String Unit` oracle standing for the fallible library/database calls
inside each `try:` block. -/

/-- A haystack `Document` as the store sees it: optional preassigned id,
content, serialized metadata, embedding. -/
structure PyDoc where
  id : Option String
  content : String
  meta : String
  embedding : List ℚ
deriving DecidableEq, Repr

/-- One SQLite `documents` table: rows keyed by the primary-key id. -/
abbrev Store := List (String × PyDoc)

/-- `doc.id if present and non-empty else self._generate_doc_id(doc)`
(local_document_store.py line 103): use the id carried by the document when present
and non-empty, otherwise the deterministic content+metadata hash id.  The md5
digests are modelled by the parameter `gen`. -/
def storeKey (gen : PyDoc → String) (d : PyDoc) : String :=
  match d.id with
  | some i => if i = "" then gen d else i
  | none => gen d

/-- SQLite `INSERT OR REPLACE` on the id primary key. -/
def upsertRow (k : String) (d : PyDoc) : Store → Store
  | [] => [(k, d)]
  | (k1, d1) :: rest => if k1 = k then (k, d) :: rest else (k1, d1) :: upsertRow k d rest

/-- SQLite `INSERT OR IGNORE` on the id primary key. -/
def insertIgnoreRow (k : String) (d : PyDoc) : Store → Store
  | [] => [(k, d)]
  | (k1, d1) :: rest =>
    if k1 = k then (k1, d1) :: rest else (k1, d1) :: insertIgnoreRow k d rest

/-- The `policy` argument of `write_documents`. -/
inductive WritePolicy where
  | overwrite
  | duplicate_skip
deriving DecidableEq, Repr

/-- The SQLite loop of `write_documents` (lines 99-117): one `INSERT OR
REPLACE` / `INSERT OR IGNORE` per document. -/
def writeRows (gen : PyDoc → String) (policy : WritePolicy) (docs : List PyDoc)
    (s : Store) : Store :=
  docs.foldl
    (fun acc d =>
      match policy with
      | .overwrite => upsertRow (storeKey gen d) d acc
      | .duplicate_skip => insertIgnoreRow (storeKey gen d) d acc)
    s

/-- `LocalDocumentStore.write_documents` (lines 81-123): empty input returns
immediately; a failure of the backing stores (`backend` oracle) is caught,
logged, and re-raised as `Exception("Failed to write documents: ...")`;
otherwise every document is upserted/inserted. -/
def write_documents (gen : PyDoc → String) (backend : Except String Unit)
    (docs : List PyDoc) (policy : WritePolicy) (s : Store) : Except String Store :=
  if docs = [] then .ok s
  else
    match backend with
    | .error e => .error ("Failed to write documents: " ++ e)
    | .ok _ => .ok (writeRows gen policy docs s)

/-- `LocalDocumentStore.delete_documents` (lines 234-260): empty input
returns immediately; a backend failure is re-raised as
`Exception("Failed to delete documents: ...")`; otherwise
`DELETE FROM documents WHERE id IN (...)`. -/
def delete_documents (backend : Except String Unit) (document_ids : List String)
    (s : Store) : Except String Store :=
  if document_ids = [] then .ok s
  else
    match backend with
    | .error e => .error ("Failed to delete documents: " ++ e)
    | .ok _ => .ok (s.filter (fun row => !document_ids.contains row.1))

/-- `LocalDocumentStore.count_documents` (lines 262-277):
`SELECT COUNT(*) FROM documents`. -/
def count_documents (s : Store) : ℕ := s.length

/-! ## Document preprocessor (`rag_app/data_ingestion/document_preprocessor.py`)

The interesting part for the error-handling claims is the boundary of
`preprocess_documents` (lines 79-149): the haystack cleaner/splitter are
external collaborators (modelled by the `stages` oracle, which produces the
chunk list or fails), and a failure inside the `try:` block is re-raised as
`Exception("Document preprocessing failed: ...")`. -/

def preprocess_documents (stages : Except String (List PyDoc)) (documents : List PyDoc) :
    Except String (List PyDoc) :=
  if documents = [] then .ok []
  else
    match stages with
    | .error e => .error ("Document preprocessing failed: " ++ e)
    | .ok chunks => .ok chunks

/-! ## RAG service (`rag_app/services/rag_service.py`) -/

/-- Result dictionary of `RAGService.index_documents`. -/
structure IndexResult where
  success : Bool
  message : String
  documents_processed : ℕ
  existing_documents : Option ℕ
  skipped_indexing : Bool
  error : Option String
deriving DecidableEq, Repr

/-- `RAGService.index_documents` (rag_service.py lines 98-137).  The indexing
pipeline run (`self.indexing_pipeline.index_documents_from_directory()` /
`reindex_all_documents()`) is modelled by `pipeline`, a state transformer
that may raise; the surrounding `try/except` converts a raised exception into
a structured `success=False` result.  When documents already exist and
`force_reindex` is false the pipeline is never invoked and the store is
untouched. -/
def index_documents (s : Store) (force_reindex : Bool)
    (pipeline : Store → Except String IndexResult × Store) : IndexResult × Store :=
  let current := count_documents s
  if 0 < current ∧ force_reindex = false then
    ({ success := true
       message := "Documents already indexed (" ++ toString current ++ " documents)"
       documents_processed := 0
       existing_documents := some current
       skipped_indexing := true
       error := none }, s)
  else
    match pipeline s with
    | (.ok r, s1) => (r, s1)
    | (.error e, s1) =>
      ({ success := false
         message := ""
         documents_processed := 0
         existing_documents := none
         skipped_indexing := false
         error := some e }, s1)

/-- Result dictionary of `RAGService.clear_index`. -/
structure ClearResult where
  success : Bool
  message : String
  documents_cleared : ℕ
  remaining_documents : Option ℕ
  error : Option String
deriving DecidableEq, Repr

/-- `RAGService.clear_index` (rag_service.py lines 269-311): an empty index
returns `success=True, documents_cleared=0` without touching the store;
otherwise all ids are deleted and the result reports the cleared/remaining
counts; a raised exception becomes a structured `success=False` result. -/
def clear_index (s : Store) (backend : Except String Unit) : ClearResult × Store :=
  let current := count_documents s
  if current = 0 then
    ({ success := true
       message := "Index was already empty"
       documents_cleared := 0
       remaining_documents := none
       error := none }, s)
  else
    let doc_ids := s.map Prod.fst
    match delete_documents backend doc_ids s with
    | .error e =>
      ({ success := false
         message := ""
         documents_cleared := 0
         remaining_documents := none
         error := some e }, s)
    | .ok s1 =>
      let remaining := count_documents s1
      ({ success := remaining = 0
         message := "Cleared " ++ toString (current - remaining) ++ " documents"
         documents_cleared := current - remaining
         remaining_documents := some remaining
         error := none }, s1)

/-! ## Query pipeline (`rag_app/pipelines/query_pipeline.py`) -/

/-- Source attribution entry built by `QueryPipeline._extract_source_info`
(lines 217-243). -/
structure SourceInfo where
  rank : ℕ
  content_preview : String
  content_length : ℕ
deriving DecidableEq, Repr

/-- `QueryPipeline._extract_source_info`: rank, 300-character preview,
length. -/
def extract_source_info (documents : List PyDoc) : List SourceInfo :=
  documents.enum.map fun (i, doc) =>
    { rank := i + 1
      content_preview :=
        if 300 < doc.content.length then doc.content.take 300 ++ "..." else doc.content
      content_length := doc.content.length }

/-- Result dictionary of `QueryPipeline.query` / `RAGService.query`. -/
structure QueryResult where
  question : String
  answer : String
  sources : List SourceInfo
  retrieved_documents : ℕ
  success : Bool
  error : Option String
deriving DecidableEq, Repr

/-- `QueryPipeline._manual_similarity_search` (lines 169-215): keep the
documents that carry a non-empty embedding, rank them with
`EmbeddingService.similarity_search`, and return the winners (indices out of
range are dropped). -/
def manual_similarity_search (s : Store) (query_embedding : List ℚ) (top_k : ℕ) :
    List PyDoc :=
  let all_docs := s.map Prod.snd
  if all_docs = [] then []
  else
    let docs_with_embeddings := all_docs.filter (fun d => !d.embedding.isEmpty)
    if docs_with_embeddings = [] then []
    else
      let document_embeddings := docs_with_embeddings.map PyDoc.embedding
      let similar_indices := similarity_search query_embedding document_embeddings top_k
      (similar_indices.filter (fun i => i < docs_with_embeddings.length)).map
        (fun i => docs_with_embeddings.getD i ⟨none, "", "", []⟩)

/-- `QueryPipeline.retrieve_documents` (lines 126-167) restricted to the
manual fallback path: an empty query embedding retrieves nothing; otherwise
the manual cosine search runs against the store.  (The haystack retriever
branch is an external collaborator.) -/
def retrieve_documents (s : Store) (query_embedding : List ℚ) (top_k : ℕ) : List PyDoc :=
  if query_embedding = [] then [] else manual_similarity_search s query_embedding top_k

/-- `QueryPipeline.query` (query_pipeline.py lines 60-124).  `retrieved` is
the outcome of `retrieve_documents` (which never raises: it degrades to `[]`),
and `generation` is the external generative-model call, which may raise; the
surrounding `try/except` converts a raised exception into a structured
`success=False` result. -/
def query_pipeline_query (question : String) (retrieved : List PyDoc)
    (generation : Except String String) : QueryResult :=
  if question = "" ∨ stripL question.toList = [] then
    { question := question
      answer := "Please provide a valid question."
      sources := []
      retrieved_documents := 0
      success := false
      error := none }
  else if retrieved = [] then
    { question := question
      answer := "I couldn\x27t find any relevant information to answer your question. Please try rephrasing your query or check if documents have been indexed."
      sources := []
      retrieved_documents := 0
      success := false
      error := none }
  else
    match generation with
    | .ok answer =>
      { question := question
        answer := answer
        sources := extract_source_info retrieved
        retrieved_documents := retrieved.length
        success := true
        error := none }
    | .error e =>
      { question := question
        answer := "I encountered an error while processing your question: " ++ e
        sources := []
        retrieved_documents := 0
        success := false
        error := some e }

/-- `RAGService.query` (rag_service.py lines 139-158): when the service is
not ready (not initialized, or zero indexed documents) a structured
`success=False` "not ready" result is returned without running the pipeline;
otherwise the pipeline result is forwarded. -/
def rag_service_query (s : Store) (initialized : Bool) (question : String)
    (pipelineResult : QueryResult) : QueryResult :=
  if initialized = true ∧ 0 < count_documents s then pipelineResult
  else
    { question := question
      answer := "The RAG service is not ready. Please ensure documents are indexed first."
      sources := []
      retrieved_documents := 0
      success := false
      error := some "Service not ready" }

/-! ## Rule-based chatbot (`src/BACKUP/app.py`)

The intent patterns are Python regular expressions built from literals,
alternation `(a|b)`, option `x?`, the dot `.` (any character except newline)
and `.*`, with optional `^...$` anchors, applied through `re.search`.  They
are embedded as a small regex language with Brzozowski-derivative matching:
`rxMatch` is a whole-string match (for `^...$` patterns) and `rxSearch` is
`re.search` (match starting at any position, ending anywhere). -/

inductive Rx where
  | fail
  | eps
  | ch (c : Char)
  | anyc
  | alt (a b : Rx)
  | seq (a b : Rx)
  | star (a : Rx)
deriving DecidableEq, Repr

def nullable : Rx → Bool
  | .fail => false
  | .eps => true
  | .ch _ => false
  | .anyc => false
  | .alt a b => nullable a || nullable b
  | .seq a b => nullable a && nullable b
  | .star _ => true

/-- Smart alternation (keeps derivative terms small). -/
def mkAlt : Rx → Rx → Rx
  | .fail, r => r
  | r, .fail => r
  | a, b => .alt a b

/-- Smart concatenation (keeps derivative terms small). -/
def mkSeq : Rx → Rx → Rx
  | .fail, _ => .fail
  | _, .fail => .fail
  | .eps, r => r
  | r, .eps => r
  | a, b => .seq a b

def deriv (r : Rx) (c : Char) : Rx :=
  match r with
  | .fail => .fail
  | .eps => .fail
  | .ch d => if d = c then .eps else .fail
  | .anyc => if c = '\n' then .fail else .eps
  | .alt a b => mkAlt (deriv a c) (deriv b c)
  | .seq a b =>
    if nullable a then mkAlt (mkSeq (deriv a c) b) (deriv b c) else mkSeq (deriv a c) b
  | .star a => mkSeq (deriv a c) (.star a)

/-- Whole-string match (Python `re.search` on a `^...$` pattern). -/
def rxMatch (r : Rx) (s : List Char) : Bool := nullable (s.foldl deriv r)

/-- Does `r` match some prefix of `s`? -/
def rxAtStart (r : Rx) : List Char → Bool
  | [] => nullable r
  | c :: cs => nullable r || rxAtStart (deriv r c) cs

/-- Python `re.search` on an unanchored pattern: `r` matches starting at some
position of `s`. -/
def rxSearch (r : Rx) : List Char → Bool
  | [] => nullable r
  | c :: cs => rxAtStart r (c :: cs) || rxSearch r cs

def litR (s : String) : Rx := s.toList.foldr (fun c r => Rx.seq (Rx.ch c) r) Rx.eps

def altsR : List Rx → Rx
  | [] => Rx.fail
  | [r] => r
  | r :: rs => Rx.alt r (altsR rs)

def seqsR : List Rx → Rx
  | [] => Rx.eps
  | [r] => r
  | r :: rs => Rx.seq r (seqsR rs)

def optR (r : Rx) : Rx := Rx.alt r Rx.eps

def anyStar : Rx := Rx.star Rx.anyc

/-- One Python pattern: its regex, and whether it is written `^...$`. -/
structure PyPattern where
  rx : Rx
  anchored : Bool
deriving Repr

def patMatch (p : PyPattern) (s : List Char) : Bool :=
  if p.anchored then rxMatch p.rx s else rxSearch p.rx s

def painWords : Rx :=
  altsR [litR "pain", litR "ache", litR "stiffness", litR "injury", litR "strain",
    litR "sprain"]

def physioWords : Rx := altsR [litR "physiotherapy", litR "physical therapy"]

/-- `INTENT_PATTERNS` (app.py lines 25-55), in dictionary order. -/
def INTENT_PATTERNS : List (String × List PyPattern) :=
  [("greet",
    [⟨seqsR [altsR [litR "hi", litR "hello", litR "hey", litR "good morning",
        litR "good evening", litR "howdy"], optR (litR " there"), optR (Rx.ch '!')], true⟩]),
   ("goodbye",
    [⟨seqsR [altsR [litR "bye", litR "goodbye", litR "see you", litR "ttyl",
        litR "talk to you later"], optR (Rx.ch '!')], true⟩]),
   ("thanks",
    [⟨seqsR [altsR [litR "thanks", litR "thank you", litR "thx", litR "thank"],
        anyStar], true⟩]),
   ("bot_challenge",
    [⟨seqsR [altsR [litR "are you a bot", litR "are you human", litR "who are you",
        litR "what are you"], anyStar], true⟩]),
   ("ask_exercise",
    [⟨seqsR [litR "exercise", anyStar, litR " for ", anyStar], false⟩,
     ⟨seqsR [altsR [litR "what", litR "recommend", litR "suggest"], anyStar,
        litR " exercise", anyStar, litR " ", altsR [litR "for", litR "to"], litR " ",
        anyStar], false⟩,
     ⟨seqsR [litR "help", anyStar, litR " ", altsR [litR "with", litR "for"], litR " ",
        anyStar, painWords, anyStar], false⟩,
     ⟨seqsR [altsR [litR "my", litR "have", litR "suffering", litR "from"], litR " ",
        anyStar, painWords, anyStar], false⟩,
     ⟨seqsR [altsR [litR "what", litR "how"], litR " ", anyStar,
        altsR [litR "can", litR "should"], litR " ", anyStar,
        altsR [litR "i", litR "one"], litR " do for ", anyStar,
        altsR [litR "pain", litR "ache", litR "stiffness", litR "injury"], anyStar],
      false⟩,
     ⟨seqsR [anyStar, litR "strengthen", anyStar, litR " ",
        altsR [litR "my", litR "the"], litR " ", anyStar], false⟩]),
   ("ask_physiotherapy_info",
    [⟨seqsR [litR "what is ", physioWords, anyStar], true⟩,
     ⟨seqsR [litR "tell me about ", physioWords, anyStar], true⟩,
     ⟨seqsR [litR "how ", altsR [litR "does", litR "do"], litR " ", physioWords,
        litR " work", anyStar], true⟩,
     ⟨seqsR [litR "benefits of ", physioWords, anyStar], true⟩]),
   ("request_help",
    [⟨seqsR [altsR [litR "help", litR "help me", litR "what can you do",
        litR "how can you help", litR "what can i ask"], anyStar], true⟩])]

/-- `BODY_PARTS` (app.py lines 58-61), in order. -/
def BODY_PARTS : List String :=
  ["back", "neck", "shoulder", "knee", "ankle", "hip", "wrist", "elbow",
   "foot", "leg", "arm", "hamstring", "calf", "quadricep", "lower back", "upper back"]

/-- `CONDITIONS` (app.py lines 64-67), in order. -/
def CONDITIONS : List String :=
  ["pain", "stiffness", "sprain", "strain", "weakness", "injury",
   "rehabilitation", "recovery", "strengthening", "mobility", "flexibility"]

/-- Does the word `w` occur in `m` starting at position `i`, delimited by
`\b` word boundaries on both sides? -/
def boundedAt (m w : List Char) (i : ℕ) : Bool :=
  decide ((m.drop i).take w.length = w) &&
  (decide (i = 0) || !isWordChar (m.getD (i - 1) ' ')) &&
  (decide (i + w.length = m.length) || !isWordChar (m.getD (i + w.length) ' '))

/-- Python `re.search(r"\b" + w + r"\b", m)` for a literal `w`. -/
def containsWord (m : List Char) (w : String) : Bool :=
  (List.range (m.length + 1)).any (boundedAt m w.toList)

/-- `extract_entities` (app.py lines 91-107): first body part and first
condition whose `\b`-delimited literal occurs in the lowercased message. -/
def extract_entities (message : List Char) : Option String × Option String :=
  (BODY_PARTS.find? (fun part => containsWord (lowerL message) part),
   CONDITIONS.find? (fun c => containsWord (lowerL message) c))

/-- `detect_intent` (app.py lines 109-133): first intent (in dictionary
order) one of whose patterns matches the lowercased message; entities are
extracted only for `ask_exercise` and `default`. -/
def detect_intent (message : List Char) : String × (Option String × Option String) :=
  let m := lowerL message
  let intent :=
    match INTENT_PATTERNS.find? (fun ip => ip.2.any (fun p => patMatch p m)) with
    | some ip => ip.1
    | none => "default"
  let entities :=
    if intent = "ask_exercise" ∨ intent = "default" then extract_entities message
    else (none, none)
  (intent, entities)

/-- An exercise: name and instructions. -/
abbrev Exercise := String × String

/-- `EXERCISES` (actions.py lines 9-150), imported by app.py: exercises by
body part and condition, in dictionary order. -/
def EXERCISES : List (String × List (String × List Exercise)) :=
  [("back",
    [("pain",
      [("Pelvic Tilt",
        "Lie on your back with knees bent. Flatten your back against the floor by tightening your abdominal muscles and bending your pelvis up slightly. Hold for 5 seconds and release. Repeat 10 times."),
       ("Knee-to-Chest Stretch",
        "Lie on your back with knees bent. Bring one knee to your chest, holding it with both hands for 15-30 seconds. Lower and repeat with the other leg. Do this 3 times for each leg."),
       ("Cat-Cow Stretch",
        "Start on your hands and knees. Arch your back upward (cat) and then let it sag (cow). Move slowly between positions 10 times.")]),
     ("stiffness",
      [("Seated Spinal Twist",
        "Sit with legs extended. Bend your right knee and place your foot outside your left thigh. Twist your torso to the right, holding for 20-30 seconds. Repeat on the other side."),
       ("Child\x27s Pose",
        "Kneel with feet together, knees hip-width apart. Sit back on your heels and stretch arms forward, lowering your chest to the floor. Hold for 30 seconds.")])]),
   ("neck",
    [("pain",
      [("Neck Rotation",
        "Slowly turn your head to the right, hold for 15 seconds. Return to center, then turn to the left. Repeat 5 times on each side."),
       ("Chin Tucks",
        "Sit or stand with good posture. Gently tuck your chin in, keeping your head level. Hold for 5 seconds, repeat 10 times.")]),
     ("stiffness",
      [("Neck Stretches",
        "Tilt your head toward one shoulder until you feel a stretch. Hold for 15-30 seconds. Repeat on the other side. Do this 3 times per side."),
       ("Shoulder Blade Squeeze",
        "Sit or stand with arms at sides. Pull your shoulder blades together, hold for 5 seconds, then release. Repeat 10 times.")])]),
   ("shoulder",
    [("pain",
      [("Pendulum Exercise",
        "Lean forward supporting yourself with one hand. Let your affected arm hang down. Swing it gently in small circles, then back and forth. Do this for 1 minute."),
       ("Shoulder External Rotation",
        "Hold a light resistance band with elbows bent at 90 degrees. Pull the band outward, rotating at the shoulder. Hold 5 seconds, repeat 10 times.")]),
     ("stiffness",
      [("Cross-Body Shoulder Stretch",
        "Bring one arm across your chest, holding it with the other arm above the elbow. Hold for 30 seconds. Repeat on the other side."),
       ("Wall Angels",
        "Stand with back against a wall, arms in \x27W\x27 position. Slowly raise arms up the wall in a snow angel motion. Repeat 10 times.")])]),
   ("knee",
    [("pain",
      [("Straight Leg Raises",
        "Lie on your back with one knee bent, the other straight. Tighten the thigh of the straight leg and lift it to the height of the bent knee. Hold 5 seconds, lower slowly. Repeat 10 times."),
       ("Hamstring Stretch",
        "Sit with one leg extended, the other bent. Reach toward the toes of the extended leg, holding for 30 seconds. Repeat on the other side.")]),
     ("stiffness",
      [("Knee Bends",
        "Hold onto a chair for support. Slowly bend your knee as far as comfortable, then straighten. Repeat 10 times with each leg."),
       ("Wall Slides",
        "Stand with back against wall, feet shoulder-width apart. Slowly slide down into a partial squat, then back up. Repeat 10 times.")])]),
   ("ankle",
    [("pain",
      [("Ankle Circles",
        "Sit with your leg extended. Rotate your ankle 10 times clockwise, then 10 times counterclockwise. Repeat with the other ankle."),
       ("Towel Stretch",
        "Sit with legs extended. Loop a towel around your foot and gently pull toward you, feeling a stretch in your calf. Hold 30 seconds, repeat 3 times per foot.")]),
     ("sprain",
      [("Alphabet Drawing",
        "Using your foot, trace each letter of the alphabet in the air. This improves range of motion."),
       ("Heel Raises",
        "Stand with feet flat. Slowly rise onto toes, then lower. Use a chair for balance if needed. Repeat 15 times.")])]),
   ("general",
    [("conditioning",
      [("Walking",
        "Start with 10-15 minutes of walking at a comfortable pace. Gradually increase duration as tolerated."),
       ("Chair Squats",
        "Stand in front of a chair with feet shoulder-width apart. Lower yourself as if sitting down, but stop just before touching the chair. Return to standing. Repeat 10 times."),
       ("Arm Circles",
        "Stand with arms extended to sides. Make small circles forward for 30 seconds, then backward for 30 seconds.")]),
     ("stretching",
      [("Full Body Stretch",
        "Stand tall, reach arms overhead, and stretch upward. Hold for 10 seconds, release and repeat 3 times."),
       ("Calf Stretch",
        "Stand facing a wall with hands at eye level. Place one leg behind you, keeping heel down. Lean forward until you feel a stretch in your calf. Hold 30 seconds, switch legs.")])])]

/-- Python `dict.get` on an (ordered) string-keyed table. -/
def lookupA {α : Type} (l : List (String × α)) (k : String) : Option α :=
  (l.find? (fun p => decide (p.1 = k))).map Prod.snd

/-- Python `str.lower()` on a `String`. -/
def lowerS (s : String) : String := String.mk (lowerL s.toList)

/-- `RESPONSES` (app.py lines 70-89). -/
def RESPONSES : List (String × List String) :=
  [("greet",
    ["Hello! I\x27m your physiotherapy assistant. I can help you with exercises for different body parts and conditions. How can I help you today?"]),
   ("goodbye",
    ["Goodbye! Take care and remember to do your exercises regularly."]),
   ("thanks",
    ["You\x27re welcome! Let me know if you need more help with your physiotherapy exercises."]),
   ("bot_challenge",
    ["I am a physiotherapy assistance bot, designed to help you with rehabilitation exercises and information. While I can provide general guidance, I\x27m not a replacement for a qualified physiotherapist."]),
   ("request_help",
    ["I can help you with physiotherapy exercises and information. You can ask me for exercises for specific body parts like \x27back\x27, \x27knee\x27, or \x27shoulder\x27, or ask about conditions like \x27pain\x27 or \x27stiffness\x27. For example, try asking \x27What exercises help with back pain?\x27 or \x27Give me some shoulder exercises\x27."]),
   ("default",
    ["I\x27m sorry, I didn\x27t quite understand that. Could you rephrase or ask me about specific exercises for a body part, like your back, knee, or shoulder?"])]

/-- `RESPONSES[key][0]`. -/
def resp0 (key : String) : String := ((lookupA RESPONSES key).getD []).getD 0 ""

/-- `recommend_exercises` (app.py lines 135-159). -/
def recommend_exercises (body_part condition : Option String) : String :=
  let bp := match body_part with | none => "general" | some b => b
  let body_exercises :=
    (lookupA EXERCISES (lowerS bp)).getD ((lookupA EXERCISES "general").getD [])
  let cond :=
    match condition with
    | some c => c
    | none =>
      if bp = "general" then "conditioning" else (body_exercises.map Prod.fst).getD 0 ""
  let condition_exercises : Option (List Exercise) :=
    match lookupA body_exercises (lowerS cond) with
    | some l => some l
    | none => lookupA body_exercises ((body_exercises.map Prod.fst).getD 0 "")
  match condition_exercises with
  | some (e :: es) =>
    "Here are some recommended exercises for " ++ cond ++ " in the " ++ bp ++ ":\n\n" ++
      ((e :: es).enum.map
        (fun (i, ex) => toString (i + 1) ++ ". **" ++ ex.1 ++ "**\n   " ++ ex.2 ++ "\n\n")).foldl
        (fun a b => a ++ b) "" ++
      "Always consult with a healthcare professional before starting any new exercise program, especially if you have existing health conditions."
  | _ =>
    "I don\x27t have specific exercises for " ++ cond ++ " in the " ++ bp ++
      ", but I recommend consulting with a physiotherapist for personalized guidance."

/-- `provide_general_info` (app.py lines 161-176). -/
def provide_general_info : String :=
  "\nPhysiotherapy, also called physical therapy, is a healthcare profession that helps people improve movement, manage pain, and prevent or recover from injuries or physical disabilities.\n\nSome key aspects of physiotherapy include:\n\n1. Exercise therapy - specific movements to improve strength, flexibility, and function\n2. Manual therapy - hands-on techniques to help relieve pain and stiffness\n3. Education - teaching you how to manage your condition and prevent future problems\n4. Movement analysis - identifying issues with how you move that might be causing problems\n\nPhysiotherapists work with people of all ages, from newborns to elderly individuals, and can help with a wide range of conditions affecting the muscles, joints, bones, nervous system, heart, and lungs.\n\nI can recommend exercises for specific body parts and conditions, but always consult with a qualified physiotherapist for a proper diagnosis and personalized treatment plan.\n"

/-- `ask_body_part` (app.py lines 178-180). -/
def ask_body_part : String :=
  "Which part of your body needs attention? For example: back, neck, shoulder, knee, or ankle?"

/-- `ask_condition` (app.py lines 182-189). -/
def ask_condition (body_part : Option String) : String :=
  match body_part with
  | some bp =>
    match lookupA EXERCISES (lowerS bp) with
    | some conds =>
      "What\x27s the issue with your " ++ bp ++ "? Common conditions include: " ++
        String.intercalate ", " (conds.map Prod.fst)
    | none =>
      "What\x27s your condition? For example: pain, stiffness, injury, or general conditioning?"
  | none =>
    "What\x27s your condition? For example: pain, stiffness, injury, or general conditioning?"

/-- Per-sender entry of the global `SESSIONS` map (app.py lines 21-22 and
194-200). -/
structure ChatSession where
  last_intent : Option String
  body_part : Option String
  condition : Option String
  awaiting : Option String
deriving DecidableEq, Repr

/-- The session created on first contact (app.py lines 194-200). -/
def freshSession : ChatSession :=
  { last_intent := none, body_part := none, condition := none, awaiting := none }

/-- The block duplicated verbatim in `get_response` for the `ask_exercise`
intent (app.py lines 251-266) and for the entity-bearing `default` intent
(lines 269-285). -/
def askExerciseFlow (s : ChatSession) (intent : String)
    (entities : Option String × Option String) : List String × ChatSession :=
  match s.body_part, s.condition with
  | some bp, some c =>
    ([recommend_exercises (some bp) (some c)],
     { s with body_part := none, condition := none, last_intent := some intent })
  | some bp, none =>
    ([ask_condition (some bp)],
     { s with awaiting := some "condition", last_intent := some intent })
  | none, _ =>
    match entities.1 with
    | some b =>
      ([ask_condition (some b)],
       { s with
         body_part := some b
         awaiting := some "condition"
         last_intent := some intent })
    | none =>
      ([ask_body_part],
       { s with awaiting := some "body_part", last_intent := some intent })

/-- `get_response` (app.py lines 191-292) for one session: parse the message,
merge extracted entities into the slots, serve a pending `awaiting` state
first (early return, `last_intent` untouched), otherwise dispatch on the
intent and record it as `last_intent`. -/
def get_response (s0 : ChatSession) (message : List Char) : List String × ChatSession :=
  let parsed := detect_intent message
  let intent := parsed.1
  let entities := parsed.2
  let s :=
    { s0 with
      body_part := match entities.1 with | some b => some b | none => s0.body_part
      condition := match entities.2 with | some c => some c | none => s0.condition }
  if s.awaiting = some "body_part" ∧ entities.1.isSome then
    ([ask_condition s.body_part], { s with awaiting := some "condition" })
  else if s.awaiting = some "condition" ∧ entities.2.isSome then
    ([recommend_exercises s.body_part s.condition],
     { s with awaiting := none, body_part := none, condition := none })
  else if intent = "greet" then
    ([resp0 "greet"], { s with last_intent := some intent })
  else if intent = "goodbye" then
    ([resp0 "goodbye"], { s with last_intent := some intent })
  else if intent = "thanks" then
    ([resp0 "thanks"], { s with last_intent := some intent })
  else if intent = "bot_challenge" then
    ([resp0 "bot_challenge"], { s with last_intent := some intent })
  else if intent = "request_help" then
    ([resp0 "request_help"], { s with last_intent := some intent })
  else if intent = "ask_physiotherapy_info" then
    ([provide_general_info], { s with last_intent := some intent })
  else if intent = "ask_exercise" then
    askExerciseFlow s intent entities
  else if entities.1.isSome ∨ entities.2.isSome then
    askExerciseFlow s intent entities
  else
    ([resp0 "default"], { s with last_intent := some intent })

/-- The `awaiting` field of a session is one of the three legal slot-fill
states: idle, awaiting the body part, or awaiting the condition. -/
def awaitingOK (s : ChatSession) : Prop :=
  s.awaiting = none ∨ s.awaiting = some "body_part" ∨ s.awaiting = some "condition"

/-- A whole conversation: fold `get_response` over the messages, starting
from a fresh session. -/
def runSession (messages : List (List Char)) : ChatSession :=
  messages.foldl (fun s m => (get_response s m).2) freshSession

/-! ### Lemmas: fallback embedding -/

theorem length_addAt (e : List ℚ) (n : ℕ) : (addAt e n).length = e.length := by
  induction e generalizing n with
  | nil => rfl
  | cons x xs ih =>
    cases n with
    | zero => rfl
    | succ m => simpa [addAt] using ih m

theorem sum_addAt (e : List ℚ) (n : ℕ) (h : n < e.length) :
    (addAt e n).sum = e.sum + 1 := by
  induction e generalizing n with
  | nil => simp at h
  | cons x xs ih =>
    cases n with
    | zero => simp [addAt]; ring
    | succ m =>
      have hm : m < xs.length := by simpa using h
      simp [addAt, ih m hm]; ring

theorem length_foldl_addAt (md5val : List Char → ℕ) (words : List (List Char)) (e : List ℚ) :
    (words.foldl (fun e w => addAt e (md5val w % 384)) e).length = e.length := by
  induction words generalizing e with
  | nil => rfl
  | cons w ws ih => simpa [length_addAt] using ih (addAt e (md5val w % 384))

theorem sum_foldl_addAt (md5val : List Char → ℕ) (words : List (List Char)) (e : List ℚ)
    (h : e.length = 384) :
    (words.foldl (fun e w => addAt e (md5val w % 384)) e).sum = e.sum + words.length := by
  induction words generalizing e with
  | nil => simp
  | cons w ws ih =>
    have hlt : md5val w % 384 < e.length := by
      rw [h]; exact Nat.mod_lt _ (by norm_num)
    have hlen : (addAt e (md5val w % 384)).length = 384 := by rw [length_addAt, h]
    rw [List.foldl_cons, ih _ hlen, sum_addAt _ _ hlt, List.length_cons]
    push_cast
    ring

theorem sum_map_div (e : List ℚ) (t : ℚ) : (e.map (fun x => x / t)).sum = e.sum / t := by
  induction e with
  | nil => simp
  | cons x xs ih => simp [ih, add_div]

/-- Core property of the fallback embedding: always 384 entries; the entries
sum to the token count divided by itself (i.e. `1`) when there is at least one
token, and the vector is the all-zero vector when there is none. -/
theorem simple_text_embedding_spec (md5val : List Char → ℕ) (text : List Char) :
    (simple_text_embedding md5val text).length = 384 ∧
    (tokenize (lowerL text) ≠ [] → (simple_text_embedding md5val text).sum = 1) ∧
    (tokenize (lowerL text) = [] → simple_text_embedding md5val text = List.replicate 384 0) := by
  unfold simple_text_embedding
  have hlenR : (List.replicate 384 (0 : ℚ)).length = 384 := List.length_replicate _ _
  have hsumR : (List.replicate 384 (0 : ℚ)).sum = 0 := by
    rw [List.sum_replicate]; simp
  generalize tokenize (lowerL text) = ws
  have hlen : (ws.foldl (fun e w => addAt e (md5val w % 384)) (List.replicate 384 0)).length
      = 384 := by
    rw [length_foldl_addAt, hlenR]
  have hsum : (ws.foldl (fun e w => addAt e (md5val w % 384)) (List.replicate 384 0)).sum
      = ws.length := by
    rw [sum_foldl_addAt md5val ws _ hlenR, hsumR, zero_add]
  refine ⟨?_, ?_, ?_⟩
  · by_cases hpos :
      0 < (ws.foldl (fun e w => addAt e (md5val w % 384)) (List.replicate 384 0)).sum
    · simp only [if_pos hpos, List.length_map, hlen]
    · simp only [if_neg hpos, hlen]
  · intro hne
    have hwpos : 0 < (ws.length : ℚ) := by
      have : 0 < ws.length := List.length_pos.mpr hne
      exact_mod_cast this
    have hpos :
        0 < (ws.foldl (fun e w => addAt e (md5val w % 384)) (List.replicate 384 0)).sum := by
      rw [hsum]; exact hwpos
    simp only [if_pos hpos, sum_map_div]
    rw [div_self (ne_of_gt hpos)]
  · intro hnil
    subst hnil
    simp only [List.foldl_nil]
    rw [if_neg (by rw [hsumR]; exact lt_irrefl 0)]

/-! ### Claim C1 -/

/-- C1 (amended): for every text `t`, `embed_text(t)` returns the empty list
when `t` is empty or whitespace-only; otherwise it returns a vector of
exactly 384 entries, whose entries sum to `1.0` whenever `t` contains at
least one `\w+` token, and which is the all-zero vector (sum `0`) when the
non-whitespace `t` contains no word character. -/
theorem C1_embed_text_spec (md5val : List Char → ℕ) (t : List Char) :
    (stripL t = [] → embed_text md5val t = []) ∧
    (stripL t ≠ [] →
      (embed_text md5val t).length = 384 ∧
      (tokenize (lowerL (stripL t)) ≠ [] → (embed_text md5val t).sum = 1) ∧
      (tokenize (lowerL (stripL t)) = [] →
        embed_text md5val t = List.replicate 384 0)) := by
  constructor
  · intro h
    simp [embed_text, h]
  · intro h
    have hspec := simple_text_embedding_spec md5val (stripL t)
    simp only [embed_text, if_neg h]
    exact hspec

/-- C1 counterexample: the one-character text `"!"` is neither empty nor
whitespace-only, yet its embedding sums to `0`, not `1.0` (there is no word
token to hash, so the all-zero vector is returned un-normalized). -/
theorem C1_counterexample :
    stripL ['!'] ≠ [] ∧
    embed_text (fun w => w.length) ['!'] ≠ [] ∧
    (embed_text (fun w => w.length) ['!']).length = 384 ∧
    (embed_text (fun w => w.length) ['!']).sum ≠ 1 := by
  have hne : stripL ['!'] ≠ [] := by decide
  have heq : embed_text (fun w => w.length) ['!'] = List.replicate 384 0 := by
    unfold embed_text
    rw [if_neg hne]
    exact (simple_text_embedding_spec (fun w => w.length) (stripL ['!'])).2.2 (by decide)
  have hlenrep : (List.replicate 384 (0 : ℚ)).length = 384 := List.length_replicate _ _
  refine ⟨hne, ?_, ?_, ?_⟩
  · rw [heq]
    intro hcontra
    rw [hcontra] at hlenrep
    exact absurd hlenrep (by norm_num)
  · rw [heq]
    exact hlenrep
  · rw [heq, List.sum_replicate]
    norm_num

/-- C1 witness: on the concrete text `" knee pain"` the theorem yields a
384-entry embedding summing to `1`. -/
theorem C1_witness :
    stripL (" knee pain".toList) ≠ [] ∧
    (embed_text (fun w => w.length) (" knee pain".toList)).length = 384 ∧
    (embed_text (fun w => w.length) (" knee pain".toList)).sum = 1 := by
  have h1 : stripL (" knee pain".toList) ≠ [] := by decide
  have h2 : tokenize (lowerL (stripL (" knee pain".toList))) ≠ [] := by decide
  obtain ⟨-, hmain⟩ := C1_embed_text_spec (fun w => w.length) (" knee pain".toList)
  obtain ⟨hlen, hsum, -⟩ := hmain h1
  exact ⟨h1, hlen, hsum h2⟩

/-! ### Lemmas: store keys and upserts -/

theorem mem_keys_upsertRow (k k1 : String) (d : PyDoc) (s : Store) :
    k1 ∈ (upsertRow k d s).map Prod.fst ↔ k1 = k ∨ k1 ∈ s.map Prod.fst := by
  induction s with
  | nil => simp [upsertRow]
  | cons row rest ih =>
    obtain ⟨k2, d2⟩ := row
    by_cases h : k2 = k
    · subst h
      have hstep : upsertRow k2 d ((k2, d2) :: rest) = (k2, d) :: rest := by
        show (if k2 = k2 then (k2, d) :: rest else (k2, d2) :: upsertRow k2 d rest)
          = (k2, d) :: rest
        rw [if_pos rfl]
      rw [hstep]
      simp only [List.map_cons, List.mem_cons]
      tauto
    · have hstep : upsertRow k d ((k2, d2) :: rest) = (k2, d2) :: upsertRow k d rest := by
        show (if k2 = k then (k, d) :: rest else (k2, d2) :: upsertRow k d rest)
          = (k2, d2) :: upsertRow k d rest
        rw [if_neg h]
      rw [hstep]
      simp only [List.map_cons, List.mem_cons, ih]
      tauto

theorem length_upsertRow_mem (k : String) (d : PyDoc) (s : Store)
    (h : k ∈ s.map Prod.fst) : (upsertRow k d s).length = s.length := by
  induction s with
  | nil => simp at h
  | cons row rest ih =>
    obtain ⟨k2, d2⟩ := row
    by_cases hk : k2 = k
    · simp [upsertRow, hk]
    · have hmem : k ∈ rest.map Prod.fst := by
        rw [List.map_cons, List.mem_cons] at h
        rcases h with h1 | h1
        · exact absurd h1.symm hk
        · exact h1
      simp [upsertRow, hk, ih hmem]

theorem keys_mono_writeRows (gen : PyDoc → String) (docs : List PyDoc) (s : Store)
    (k : String) (h : k ∈ s.map Prod.fst) :
    k ∈ (writeRows gen .overwrite docs s).map Prod.fst := by
  induction docs generalizing s with
  | nil => simpa [writeRows] using h
  | cons d ds ih =>
    show k ∈ (writeRows gen .overwrite ds (upsertRow (storeKey gen d) d s)).map Prod.fst
    exact ih _ ((mem_keys_upsertRow _ _ _ _).mpr (Or.inr h))

theorem key_mem_writeRows (gen : PyDoc → String) (docs : List PyDoc) (s : Store)
    (d : PyDoc) (hd : d ∈ docs) :
    storeKey gen d ∈ (writeRows gen .overwrite docs s).map Prod.fst := by
  induction docs generalizing s with
  | nil => cases hd
  | cons d0 ds ih =>
    rcases List.mem_cons.mp hd with h | h
    · subst h
      show storeKey gen d ∈
        (writeRows gen .overwrite ds (upsertRow (storeKey gen d) d s)).map Prod.fst
      exact keys_mono_writeRows gen ds _ _ ((mem_keys_upsertRow _ _ _ _).mpr (Or.inl rfl))
    · show storeKey gen d ∈
        (writeRows gen .overwrite ds (upsertRow (storeKey gen d0) d0 s)).map Prod.fst
      exact ih _ h

theorem length_writeRows_allMem (gen : PyDoc → String) (docs : List PyDoc) (s : Store)
    (h : ∀ d ∈ docs, storeKey gen d ∈ s.map Prod.fst) :
    (writeRows gen .overwrite docs s).length = s.length := by
  induction docs generalizing s with
  | nil => simp [writeRows]
  | cons d ds ih =>
    show (writeRows gen .overwrite ds (upsertRow (storeKey gen d) d s)).length = s.length
    rw [ih _ (fun d2 hd2 =>
      (mem_keys_upsertRow _ _ _ _).mpr (Or.inr (h d2 (List.mem_cons_of_mem _ hd2))))]
    exact length_upsertRow_mem _ _ _ (h d (List.mem_cons_self _ _))

/-! ### Claim C2 -/

/-- C2: writing the same (preprocessed, deterministically keyed) document
list twice under the `"overwrite"` policy leaves the stored document count
unchanged after the second write: every key is already present, so each
`INSERT OR REPLACE` upserts instead of adding a row.  This holds for every
key-derivation function `gen`, in particular for the content+metadata hash of
`_generate_doc_id`. -/
theorem C2_reindex_overwrite_idempotent_count (gen : PyDoc → String)
    (docs : List PyDoc) (s s1 s2 : Store)
    (h1 : write_documents gen (.ok ()) docs .overwrite s = .ok s1)
    (h2 : write_documents gen (.ok ()) docs .overwrite s1 = .ok s2) :
    count_documents s2 = count_documents s1 := by
  unfold write_documents at h1 h2
  by_cases hd : docs = []
  · rw [if_pos hd] at h1 h2
    cases h1
    cases h2
    rfl
  · rw [if_neg hd] at h1 h2
    cases h1
    cases h2
    exact length_writeRows_allMem gen docs _ (fun d hd2 => key_mem_writeRows gen docs s d hd2)

/-- C2 witness: a concrete one-document store written twice keeps one row. -/
theorem C2_witness :
    write_documents (fun _ => "k") (.ok ()) [⟨none, "c", "m", []⟩] .overwrite []
      = .ok [("k", ⟨none, "c", "m", []⟩)] ∧
    write_documents (fun _ => "k") (.ok ()) [⟨none, "c", "m", []⟩] .overwrite
        [("k", ⟨none, "c", "m", []⟩)]
      = .ok [("k", ⟨none, "c", "m", []⟩)] ∧
    count_documents [("k", (⟨none, "c", "m", []⟩ : PyDoc))]
      = count_documents [("k", ⟨none, "c", "m", []⟩)] := by
  refine ⟨rfl, rfl, ?_⟩
  exact C2_reindex_overwrite_idempotent_count (fun _ => "k") [⟨none, "c", "m", []⟩] []
    [("k", ⟨none, "c", "m", []⟩)] [("k", ⟨none, "c", "m", []⟩)] rfl rfl

/-! ### Claim C5 -/

/-- C5 counterexample: `LocalDocumentStore.write_documents` does propagate an
exception to its caller: when the backing store fails, the `except` block
logs and re-raises `Exception("Failed to write documents: ...")` instead of
returning a structured `success=false` result. -/
theorem C5_counterexample :
    write_documents (fun _ => "k") (.error "disk full") [⟨none, "c", "m", []⟩]
      .overwrite []
      = .error "Failed to write documents: disk full" := rfl

/-- C5 (amended): component-level failures are caught and converted into
structured `success=false` results at the service boundary, but the named
component operations themselves re-raise: `write_documents`,
`delete_documents` and `preprocess_documents` each catch an inner failure,
log it, and raise a wrapped `Exception` to the caller; it is
`RAGService.index_documents` (and the query pipeline, see C6) that converts a
raised exception into `success=false` with an `error` string. -/
theorem C5_error_boundaries :
    (∀ (gen : PyDoc → String) (e : String) (docs : List PyDoc) (p : WritePolicy)
      (s : Store), docs ≠ [] →
      write_documents gen (.error e) docs p s
        = .error ("Failed to write documents: " ++ e)) ∧
    (∀ (e : String) (ids : List String) (s : Store), ids ≠ [] →
      delete_documents (.error e) ids s = .error ("Failed to delete documents: " ++ e)) ∧
    (∀ (e : String) (docs : List PyDoc), docs ≠ [] →
      preprocess_documents (.error e) docs
        = .error ("Document preprocessing failed: " ++ e)) ∧
    (∀ (s s1 : Store) (f : Bool) (pl : Store → Except String IndexResult × Store)
      (e : String), pl s = (.error e, s1) → ¬(0 < count_documents s ∧ f = false) →
      (index_documents s f pl).1.success = false ∧
      (index_documents s f pl).1.error = some e) ∧
    (∀ (q : String) (r : List PyDoc) (e : String),
      (query_pipeline_query q r (.error e)).success = false) := by
  refine ⟨?_, ?_, ?_, ?_, ?_⟩
  · intro gen e docs p s hd
    simp [write_documents, hd]
  · intro e ids s hd
    simp [delete_documents, hd]
  · intro e docs hd
    simp [preprocess_documents, hd]
  · intro s s1 f pl e hpl hskip
    have hred : index_documents s f pl =
        ({ success := false
           message := ""
           documents_processed := 0
           existing_documents := none
           skipped_indexing := false
           error := some e }, s1) := by
      simp only [index_documents]
      rw [if_neg hskip, hpl]
    rw [hred]
    exact ⟨rfl, rfl⟩

  · intro q r e
    unfold query_pipeline_query
    split
    · rfl
    · split
      · rfl
      · rfl

/-- C5 witness: concrete instances of the re-raising components and of the
catching service boundary. -/
theorem C5_witness :
    delete_documents (.error "locked") ["k"] []
      = .error ("Failed to delete documents: " ++ "locked") ∧
    preprocess_documents (.error "bad pdf") [⟨none, "c", "m", []⟩]
      = .error ("Document preprocessing failed: " ++ "bad pdf") ∧
    (index_documents [] true (fun t => (.error "boom", t))).1.success = false ∧
    (index_documents [] true (fun t => (.error "boom", t))).1.error = some "boom" ∧
    (query_pipeline_query "q" [] (.error "down")).success = false := by
  obtain ⟨-, hdel, hpre, hidx, hq⟩ := C5_error_boundaries
  obtain ⟨hs, he⟩ := hidx [] [] true (fun t => (.error "boom", t)) "boom" rfl (by decide)
  exact ⟨hdel "locked" ["k"] [] (by decide), hpre "bad pdf" [⟨none, "c", "m", []⟩]
    (by decide), hs, he, hq "q" [] "down"⟩

/-! ### Claim C6 -/

/-- C6: querying with no indexed documents never raises and reports failure:
`RAGService.query` short-circuits with `success=false` and the "not ready"
answer (the store has zero documents, so `is_ready()` is false), and
`QueryPipeline.query` — whose retrieval degrades to the empty list on the
empty store — returns `success=false` with the "couldn\x27t find any relevant
information" answer; both are structured results, not exceptions. -/
theorem C6_query_without_documents (s : Store) (q : String) (pr : QueryResult)
    (qe : List ℚ) (k : ℕ) (g : Except String String)
    (hcount : count_documents s = 0) (hq1 : q ≠ "") (hq2 : stripL q.toList ≠ []) :
    (rag_service_query s true q pr).success = false ∧
    (rag_service_query s true q pr).answer
      = "The RAG service is not ready. Please ensure documents are indexed first." ∧
    retrieve_documents s qe k = [] ∧
    (query_pipeline_query q (retrieve_documents s qe k) g).success = false ∧
    (query_pipeline_query q (retrieve_documents s qe k) g).answer
      = "I couldn\x27t find any relevant information to answer your question. Please try rephrasing your query or check if documents have been indexed." := by
  have hnil : s = [] := List.length_eq_zero.mp hcount
  subst hnil
  have hret : retrieve_documents [] qe k = [] := by
    unfold retrieve_documents manual_similarity_search
    split
    · rfl
    · simp
  have hq3 : stripL q.data ≠ [] := hq2
  refine ⟨?_, ?_, hret, ?_, ?_⟩
  · simp [rag_service_query, count_documents]
  · simp [rag_service_query, count_documents]
  · rw [hret]
    simp [query_pipeline_query, hq1, hq3]
  · rw [hret]
    simp [query_pipeline_query, hq1, hq3]

/-- C6 witness: the concrete question `"What is physiotherapy?"` against the
empty store. -/
theorem C6_witness :
    (rag_service_query [] true "What is physiotherapy?"
        ⟨"", "", [], 0, true, none⟩).success = false ∧
    (query_pipeline_query "What is physiotherapy?"
        (retrieve_documents [] [1] 5) (.ok "answer")).answer
      = "I couldn\x27t find any relevant information to answer your question. Please try rephrasing your query or check if documents have been indexed." := by
  obtain ⟨h1, -, -, -, h5⟩ := C6_query_without_documents [] "What is physiotherapy?"
    ⟨"", "", [], 0, true, none⟩ [1] 5 (.ok "answer") rfl (by decide) (by decide)
  exact ⟨h1, h5⟩

/-! ### Claim C8 -/

/-- C8: clearing an empty index succeeds with `documents_cleared=0` and the
message `"Index was already empty"`, and leaves the store untouched (the
delete path is never reached). -/
theorem C8_clear_empty_index (s : Store) (backend : Except String Unit)
    (h : count_documents s = 0) :
    clear_index s backend =
      ({ success := true
         message := "Index was already empty"
         documents_cleared := 0
         remaining_documents := none
         error := none }, s) := by
  unfold clear_index
  rw [h]
  rfl

/-- C8 witness: the empty store. -/
theorem C8_witness :
    clear_index [] (.ok ()) =
      ({ success := true
         message := "Index was already empty"
         documents_cleared := 0
         remaining_documents := none
         error := none }, ([] : Store)) :=
  C8_clear_empty_index [] (.ok ()) rfl

/-! ### Claim C10 -/

/-- C10: with at least one stored document and `force_reindex=False`,
`RAGService.index_documents` skips indexing: it returns `success=true`,
`documents_processed=0`, `existing_documents` equal to the current count and
`skipped_indexing=true`, the indexing pipeline is never invoked, and the
store is returned unchanged. -/
theorem C10_index_documents_skips (s : Store)
    (pl : Store → Except String IndexResult × Store) (h : 0 < count_documents s) :
    index_documents s false pl =
      ({ success := true
         message := "Documents already indexed (" ++ toString (count_documents s)
           ++ " documents)"
         documents_processed := 0
         existing_documents := some (count_documents s)
         skipped_indexing := true
         error := none }, s) := by
  unfold index_documents
  rw [if_pos ⟨h, rfl⟩]

/-- C10 witness: a one-document store with an always-failing pipeline — the
pipeline is not consulted and the store survives unchanged. -/
theorem C10_witness :
    index_documents [("k", ⟨none, "c", "m", []⟩)] false (fun t => (.error "boom", t)) =
      ({ success := true
         message := "Documents already indexed (1 documents)"
         documents_processed := 0
         existing_documents := some 1
         skipped_indexing := true
         error := none }, [("k", (⟨none, "c", "m", []⟩ : PyDoc))]) := by
  rw [C10_index_documents_skips [("k", ⟨none, "c", "m", []⟩)]
    (fun t => (.error "boom", t)) (by decide)]
  rfl

/-! ### Lemmas: cosine comparisons without square roots -/

theorem sqrtScale_le_iff (A B na nb : ℝ) (hA : 0 ≤ A) (hB : 0 ≤ B)
    (hna : 0 < na) (hnb : 0 < nb) :
    B * Real.sqrt na ≤ A * Real.sqrt nb ↔ B * B * na ≤ A * A * nb := by
  have h1 : Real.sqrt na * Real.sqrt na = na := Real.mul_self_sqrt hna.le
  have h2 : Real.sqrt nb * Real.sqrt nb = nb := Real.mul_self_sqrt hnb.le
  have ea : (B * Real.sqrt na) * (B * Real.sqrt na) = B * B * na := by
    rw [mul_mul_mul_comm, h1]
  have eb : (A * Real.sqrt nb) * (A * Real.sqrt nb) = A * A * nb := by
    rw [mul_mul_mul_comm, h2]
  constructor
  · intro h
    have h3 := mul_self_le_mul_self (mul_nonneg hB (Real.sqrt_nonneg na)) h
    rw [ea, eb] at h3
    exact h3
  · intro h
    apply nonneg_le_nonneg_of_sq_le_sq (mul_nonneg hA (Real.sqrt_nonneg nb))
    rw [ea, eb]
    exact h

theorem norm2Q_nil : norm2Q [] = 0 := rfl

theorem simGEb_eq_true_iff (q a b : List ℚ) (hq : 0 < norm2Q q) (ha : 0 < norm2Q a)
    (hb : 0 < norm2Q b) :
    simGEb q a b = true ↔ cosineSim q b ≤ cosineSim q a := by
  have hqR : (0 : ℝ) < ((norm2Q q : ℚ) : ℝ) := by exact_mod_cast hq
  have haR : (0 : ℝ) < ((norm2Q a : ℚ) : ℝ) := by exact_mod_cast ha
  have hbR : (0 : ℝ) < ((norm2Q b : ℚ) : ℝ) := by exact_mod_cast hb
  have hsq0 := Real.sqrt_pos.mpr hqR
  have hsa0 := Real.sqrt_pos.mpr haR
  have hsb0 := Real.sqrt_pos.mpr hbR
  have key : cosineSim q b ≤ cosineSim q a ↔
      ((dotQ b q : ℚ) : ℝ) * Real.sqrt ((norm2Q a : ℚ) : ℝ)
        ≤ ((dotQ a q : ℚ) : ℝ) * Real.sqrt ((norm2Q b : ℚ) : ℝ) := by
    unfold cosineSim
    rw [div_le_div_iff (mul_pos hsb0 hsq0) (mul_pos hsa0 hsq0), ← mul_assoc, ← mul_assoc]
    exact ⟨fun h => le_of_mul_le_mul_right h hsq0,
      fun h => mul_le_mul_of_nonneg_right h hsq0.le⟩
  rw [key]
  rcases le_or_lt 0 (dotQ a q) with hA | hA <;> rcases le_or_lt 0 (dotQ b q) with hB | hB
  · have hred : simGEb q a b
        = decide (dotQ b q * dotQ b q * norm2Q a ≤ dotQ a q * dotQ a q * norm2Q b) := by
      simp only [simGEb]
      rw [if_pos hA, if_pos hB]
    have hAR : (0 : ℝ) ≤ ((dotQ a q : ℚ) : ℝ) := by exact_mod_cast hA
    have hBR : (0 : ℝ) ≤ ((dotQ b q : ℚ) : ℝ) := by exact_mod_cast hB
    rw [hred, decide_eq_true_iff, sqrtScale_le_iff _ _ _ _ hAR hBR haR hbR]
    constructor
    · intro h
      exact_mod_cast h
    · intro h
      exact_mod_cast h
  · have hred : simGEb q a b = true := by
      simp only [simGEb]
      rw [if_pos hA, if_neg (not_le.mpr hB)]
    rw [hred]
    have hAR : (0 : ℝ) ≤ ((dotQ a q : ℚ) : ℝ) := by exact_mod_cast hA
    have hBR : ((dotQ b q : ℚ) : ℝ) < 0 := by exact_mod_cast hB
    constructor
    · intro _
      have h1 : ((dotQ b q : ℚ) : ℝ) * Real.sqrt ((norm2Q a : ℚ) : ℝ) ≤ 0 :=
        mul_nonpos_of_nonpos_of_nonneg hBR.le (Real.sqrt_nonneg _)
      have h2 : 0 ≤ ((dotQ a q : ℚ) : ℝ) * Real.sqrt ((norm2Q b : ℚ) : ℝ) :=
        mul_nonneg hAR (Real.sqrt_nonneg _)
      linarith
    · intro _
      rfl
  · have hred : simGEb q a b = false := by
      simp only [simGEb]
      rw [if_neg (not_le.mpr hA), if_pos hB]
    rw [hred]
    have hAR : ((dotQ a q : ℚ) : ℝ) < 0 := by exact_mod_cast hA
    have hBR : (0 : ℝ) ≤ ((dotQ b q : ℚ) : ℝ) := by exact_mod_cast hB
    constructor
    · intro h
      cases h
    · intro h
      exfalso
      have h1 : (0 : ℝ) ≤ ((dotQ b q : ℚ) : ℝ) * Real.sqrt ((norm2Q a : ℚ) : ℝ) :=
        mul_nonneg hBR (Real.sqrt_nonneg _)
      have h2 : ((dotQ a q : ℚ) : ℝ) * Real.sqrt ((norm2Q b : ℚ) : ℝ) < 0 :=
        mul_neg_of_neg_of_pos hAR hsb0
      linarith
  · have hred : simGEb q a b
        = decide (dotQ a q * dotQ a q * norm2Q b ≤ dotQ b q * dotQ b q * norm2Q a) := by
      simp only [simGEb]
      rw [if_neg (not_le.mpr hA), if_neg (not_le.mpr hB)]
    rw [hred, decide_eq_true_iff]
    have hAR : ((dotQ a q : ℚ) : ℝ) < 0 := by exact_mod_cast hA
    have hBR : ((dotQ b q : ℚ) : ℝ) < 0 := by exact_mod_cast hB
    have key2 := sqrtScale_le_iff (-((dotQ b q : ℚ) : ℝ)) (-((dotQ a q : ℚ) : ℝ))
      ((norm2Q b : ℚ) : ℝ) ((norm2Q a : ℚ) : ℝ) (by linarith) (by linarith) hbR haR
    constructor
    · intro h
      have hR : ((dotQ a q : ℚ) : ℝ) * ((dotQ a q : ℚ) : ℝ) * ((norm2Q b : ℚ) : ℝ)
          ≤ ((dotQ b q : ℚ) : ℝ) * ((dotQ b q : ℚ) : ℝ) * ((norm2Q a : ℚ) : ℝ) := by
        exact_mod_cast h
      have h2 : (-((dotQ a q : ℚ) : ℝ)) * (-((dotQ a q : ℚ) : ℝ)) * ((norm2Q b : ℚ) : ℝ)
          ≤ (-((dotQ b q : ℚ) : ℝ)) * (-((dotQ b q : ℚ) : ℝ)) * ((norm2Q a : ℚ) : ℝ) := by
        nlinarith [hR]
      have h3 := key2.mpr h2
      linarith
    · intro h
      have h3 : (-((dotQ a q : ℚ) : ℝ)) * Real.sqrt ((norm2Q b : ℚ) : ℝ)
          ≤ (-((dotQ b q : ℚ) : ℝ)) * Real.sqrt ((norm2Q a : ℚ) : ℝ) := by
        linarith
      have h2 := key2.mp h3
      have hR : ((dotQ a q : ℚ) : ℝ) * ((dotQ a q : ℚ) : ℝ) * ((norm2Q b : ℚ) : ℝ)
          ≤ ((dotQ b q : ℚ) : ℝ) * ((dotQ b q : ℚ) : ℝ) * ((norm2Q a : ℚ) : ℝ) := by
        nlinarith [h2]
      exact_mod_cast hR

/-! ### Lemmas: the ranking comparator against real cosine similarity -/

theorem argCmp_true_char (q : List ℚ) (docs : List (List ℚ)) (i j : ℕ)
    (hq : 0 < norm2Q q) (hi : 0 < norm2Q (docs.getD i []))
    (hj : 0 < norm2Q (docs.getD j [])) :
    argCmp q docs i j = true ↔
      (cosineSim q (docs.getD j []) < cosineSim q (docs.getD i []) ∨
        (cosineSim q (docs.getD i []) = cosineSim q (docs.getD j []) ∧ j < i)) := by
  have hGE1 := simGEb_eq_true_iff q (docs.getD i []) (docs.getD j []) hq hi hj
  have hGE2 := simGEb_eq_true_iff q (docs.getD j []) (docs.getD i []) hq hj hi
  simp only [argCmp, Bool.or_eq_true, Bool.and_eq_true, Bool.not_eq_true',
    decide_eq_true_iff]
  constructor
  · rintro (⟨h1, h2⟩ | ⟨⟨h1, h2⟩, h3⟩)
    · left
      have hle := hGE1.mp h1
      have hnotle : ¬(cosineSim q (docs.getD i []) ≤ cosineSim q (docs.getD j [])) := by
        intro hc
        rw [hGE2.mpr hc] at h2
        cases h2
      exact lt_of_le_not_le hle hnotle
    · right
      exact ⟨le_antisymm (hGE2.mp h2) (hGE1.mp h1), h3⟩
  · rintro (h | ⟨heq, hlt⟩)
    · left
      refine ⟨hGE1.mpr h.le, ?_⟩
      cases hba : simGEb q (docs.getD j []) (docs.getD i []) with
      | false => rfl
      | true => exact absurd (hGE2.mp hba) (not_le.mpr h)
    · right
      exact ⟨⟨hGE1.mpr heq.ge, hGE2.mpr heq.le⟩, hlt⟩

theorem argCmp_false_char (q : List ℚ) (docs : List (List ℚ)) (i j : ℕ)
    (hq : 0 < norm2Q q) (hi : 0 < norm2Q (docs.getD i []))
    (hj : 0 < norm2Q (docs.getD j [])) (h : argCmp q docs i j = false) :
    cosineSim q (docs.getD i []) < cosineSim q (docs.getD j []) ∨
      (cosineSim q (docs.getD i []) = cosineSim q (docs.getD j []) ∧ i ≤ j) := by
  have hchar := argCmp_true_char q docs i j hq hi hj
  rw [h] at hchar
  have hnot : ¬(cosineSim q (docs.getD j []) < cosineSim q (docs.getD i []) ∨
      (cosineSim q (docs.getD i []) = cosineSim q (docs.getD j []) ∧ j < i)) := by
    intro hcontra
    cases hchar.mpr hcontra
  push_neg at hnot
  rcases lt_trichotomy (cosineSim q (docs.getD i [])) (cosineSim q (docs.getD j []))
    with h1 | h1 | h1
  · exact Or.inl h1
  · exact Or.inr ⟨h1, hnot.2 h1⟩
  · exact absurd h1 (not_lt.mpr hnot.1)

/-! ### Lemmas: the insertion ranking -/

theorem mem_insertRanked (r : ℕ → ℕ → Bool) (x a : ℕ) (l : List ℕ) :
    a ∈ insertRanked r x l ↔ a = x ∨ a ∈ l := by
  induction l with
  | nil => simp [insertRanked]
  | cons y ys ih =>
    simp only [insertRanked]
    split
    · simp only [List.mem_cons]
    · simp only [List.mem_cons, ih]
      tauto

theorem perm_insertRanked (r : ℕ → ℕ → Bool) (x : ℕ) (l : List ℕ) :
    (insertRanked r x l).Perm (x :: l) := by
  induction l with
  | nil => simp [insertRanked]
  | cons y ys ih =>
    simp only [insertRanked]
    split
    · exact List.Perm.refl _
    · exact List.Perm.trans (List.Perm.cons y ih) (List.Perm.swap x y ys)

theorem perm_rankBy (r : ℕ → ℕ → Bool) (l : List ℕ) : (rankBy r l).Perm l := by
  induction l with
  | nil => exact List.Perm.refl _
  | cons x xs ih =>
    exact List.Perm.trans (perm_insertRanked r x (rankBy r xs)) (List.Perm.cons x ih)

theorem pairwise_insertRanked {R : ℕ → ℕ → Prop} (r : ℕ → ℕ → Bool) (x : ℕ) (l : List ℕ)
    (htrans : ∀ u v w, R u v → R v w → R u w)
    (h1 : ∀ b ∈ l, r x b = true → R x b) (h2 : ∀ b ∈ l, r x b = false → R b x)
    (hp : l.Pairwise R) : (insertRanked r x l).Pairwise R := by
  induction l with
  | nil => simp [insertRanked]
  | cons y ys ih =>
    obtain ⟨hy, hys⟩ := List.pairwise_cons.mp hp
    simp only [insertRanked]
    split
    case isTrue hxy =>
      refine List.pairwise_cons.mpr ⟨?_, hp⟩
      intro z hz
      rcases List.mem_cons.mp hz with rfl | hz2
      · exact h1 z (List.mem_cons_self _ _) hxy
      · exact htrans _ _ _ (h1 y (List.mem_cons_self _ _) hxy) (hy z hz2)
    case isFalse hxy =>
      refine List.pairwise_cons.mpr ⟨?_, ?_⟩
      · intro z hz
        rcases (mem_insertRanked r x z ys).mp hz with rfl | hz2
        · exact h2 y (List.mem_cons_self _ _) (Bool.not_eq_true _ ▸ hxy)
        · exact hy z hz2
      · exact ih (fun b hb => h1 b (List.mem_cons_of_mem _ hb))
          (fun b hb => h2 b (List.mem_cons_of_mem _ hb)) hys

theorem pairwise_rankBy {R : ℕ → ℕ → Prop} (r : ℕ → ℕ → Bool) (l : List ℕ)
    (htrans : ∀ u v w, R u v → R v w → R u w)
    (hcmp : ∀ i ∈ l, ∀ j ∈ l, (r i j = true → R i j) ∧ (r i j = false → R j i)) :
    (rankBy r l).Pairwise R := by
  induction l with
  | nil => simp [rankBy]
  | cons x xs ih =>
    have hperm := perm_rankBy r xs
    apply pairwise_insertRanked r x _ htrans
    · intro b hb hr
      have hbxs : b ∈ xs := hperm.mem_iff.mp hb
      exact (hcmp x (List.mem_cons_self _ _) b (List.mem_cons_of_mem _ hbxs)).1 hr
    · intro b hb hr
      have hbxs : b ∈ xs := hperm.mem_iff.mp hb
      exact (hcmp x (List.mem_cons_self _ _) b (List.mem_cons_of_mem _ hbxs)).2 hr
    · exact ih (fun i hi j hj =>
        hcmp i (List.mem_cons_of_mem _ hi) j (List.mem_cons_of_mem _ hj))

/-- Core ranking property: over candidates of positive squared norm, the full
(untruncated) ranking is pairwise ordered by descending real cosine
similarity, ties broken by descending index. -/
theorem rankBy_argCmp_pairwise (q : List ℚ) (docs : List (List ℚ))
    (hq : 0 < norm2Q q) (hnorm : ∀ d ∈ docs, 0 < norm2Q d) :
    (rankBy (argCmp q docs) (List.range docs.length)).Pairwise
      (fun i j => cosineSim q (docs.getD j []) < cosineSim q (docs.getD i []) ∨
        (cosineSim q (docs.getD i []) = cosineSim q (docs.getD j []) ∧ j ≤ i)) := by
  have hmem : ∀ i ∈ List.range docs.length, 0 < norm2Q (docs.getD i []) := by
    intro i hi
    have hlt : i < docs.length := List.mem_range.mp hi
    have : docs.getD i [] ∈ docs := by
      rw [List.getD_eq_getElem _ _ hlt]
      exact List.getElem_mem hlt
    exact hnorm _ this
  apply pairwise_rankBy
  · intro u v w huv hvw
    rcases huv with h1 | ⟨h1, h1b⟩ <;> rcases hvw with h2 | ⟨h2, h2b⟩
    · exact Or.inl (lt_trans h2 h1)
    · left
      rw [← h2]
      exact h1
    · left
      rw [h1]
      exact h2
    · exact Or.inr ⟨h1.trans h2, le_trans h2b h1b⟩
  · intro i hi j hj
    constructor
    · intro hr
      rcases (argCmp_true_char q docs i j hq (hmem i hi) (hmem j hj)).mp hr
        with h | ⟨h, hlt⟩
      · exact Or.inl h
      · exact Or.inr ⟨h, hlt.le⟩
    · intro hr
      rcases argCmp_false_char q docs i j hq (hmem i hi) (hmem j hj) hr
        with h | ⟨h, hle⟩
      · exact Or.inl h
      · exact Or.inr ⟨h.symm, hle⟩

/-! ### Claim C3 -/

/-- C3: for a query of positive squared norm and a non-empty candidate list
of positive squared norms, `similarity_search` returns indices ordered by
non-increasing cosine similarity, and the first returned index has cosine
similarity at least that of every candidate. -/
theorem C3_similarity_search_descending (q : List ℚ) (docs : List (List ℚ)) (k : ℕ)
    (hq : 0 < norm2Q q) (hdocs : docs ≠ []) (hk : 1 ≤ k)
    (hnorm : ∀ d ∈ docs, 0 < norm2Q d) :
    (similarity_search q docs k).Pairwise
      (fun i j => cosineSim q (docs.getD j []) ≤ cosineSim q (docs.getD i [])) ∧
    ∃ i0 rest, similarity_search q docs k = i0 :: rest ∧
      ∀ j < docs.length, cosineSim q (docs.getD j []) ≤ cosineSim q (docs.getD i0 []) := by
  have hqne : q ≠ [] := by
    intro h
    rw [h, norm2Q_nil] at hq
    exact lt_irrefl 0 hq
  have hpair := rankBy_argCmp_pairwise q docs hq hnorm
  have hperm := perm_rankBy (argCmp q docs) (List.range docs.length)
  have hss : similarity_search q docs k
      = (rankBy (argCmp q docs) (List.range docs.length)).take k := by
    unfold similarity_search
    rw [if_neg (by push_neg; exact ⟨hqne, hdocs⟩)]
  have hlen : (rankBy (argCmp q docs) (List.range docs.length)).length = docs.length := by
    rw [hperm.length_eq, List.length_range]
  have hn : 0 < docs.length := List.length_pos.mpr hdocs
  obtain ⟨i0, rest, hcons⟩ :
      ∃ i0 rest, rankBy (argCmp q docs) (List.range docs.length) = i0 :: rest := by
    cases hrb : rankBy (argCmp q docs) (List.range docs.length) with
    | nil =>
      rw [hrb] at hlen
      simp at hlen
      omega
    | cons c cs => exact ⟨c, cs, rfl⟩
  constructor
  · rw [hss]
    refine List.Pairwise.sublist (List.take_sublist _ _) ?_
    refine hpair.imp ?_
    rintro i j (h | ⟨h, -⟩)
    · exact h.le
    · exact h.ge
  · obtain ⟨m, rfl⟩ : ∃ m, k = m + 1 := ⟨k - 1, by omega⟩
    refine ⟨i0, rest.take m, ?_, ?_⟩
    · rw [hss, hcons, List.take_succ_cons]
    · intro j hj
      have hjmem : j ∈ rankBy (argCmp q docs) (List.range docs.length) := by
        rw [hperm.mem_iff]
        exact List.mem_range.mpr hj
      rw [hcons] at hjmem
      rcases List.mem_cons.mp hjmem with rfl | hjrest
      · exact le_refl _
      · have hhead := (List.pairwise_cons.mp (hcons ▸ hpair)).1 j hjrest
        rcases hhead with h | ⟨h, -⟩
        · exact h.le
        · exact h.ge

/-- C3 witness: query `[1]` against candidates `[[1], [2]]`. -/
theorem C3_witness :
    0 < norm2Q ([1] : List ℚ) ∧
    (([[1], [2]] : List (List ℚ)) ≠ []) ∧
    (similarity_search [1] [[1], [2]] 5).Pairwise
      (fun i j => cosineSim [1] (([[1], [2]] : List (List ℚ)).getD j [])
        ≤ cosineSim [1] (([[1], [2]] : List (List ℚ)).getD i [])) := by
  have h1 : 0 < norm2Q ([1] : List ℚ) := by norm_num [norm2Q, dotQ]
  have h2 : ∀ d ∈ ([[1], [2]] : List (List ℚ)), 0 < norm2Q d := by
    intro d hd
    simp only [List.mem_cons, List.not_mem_nil, or_false] at hd
    rcases hd with rfl | rfl <;> norm_num [norm2Q, dotQ]
  refine ⟨h1, by simp, ?_⟩
  exact (C3_similarity_search_descending [1] [[1], [2]] 5 h1 (by simp) (by norm_num) h2).1

/-! ### Claim C4 -/

/-- C4 counterexample: the two candidates `[[1], [1]]` are identical (hence
equally similar to the query `[1]`), yet the ranking is `[1, 0]`: the larger
index comes first, not the smaller. -/
theorem C4_counterexample :
    (([[1], [1]] : List (List ℚ)).getD 0 [] = ([[1], [1]] : List (List ℚ)).getD 1 []) ∧
    similarity_search [1] [[1], [1]] 5 = [1, 0] := by
  refine ⟨rfl, ?_⟩
  have hr : argCmp [1] [[1], [1]] 0 1 = false := by
    simp [argCmp, simGEb, dotQ, norm2Q]
  unfold similarity_search
  rw [if_neg (by simp)]
  have hrange : List.range ([[1], [1]] : List (List ℚ)).length = [0, 1] := rfl
  rw [hrange]
  simp [rankBy, insertRanked, hr]

/-- C4 (amended): among equally similar candidates the one with the larger
index appears earlier in the ranking — `np.argsort` sorts ascending keeping
index order among ties, and the `[::-1]` reversal therefore flips ties to
descending index order. -/
theorem C4_ties_larger_index_first (q : List ℚ) (docs : List (List ℚ)) (k : ℕ)
    (hq : 0 < norm2Q q) (hdocs : docs ≠ []) (hnorm : ∀ d ∈ docs, 0 < norm2Q d) :
    (similarity_search q docs k).Pairwise
      (fun i j => cosineSim q (docs.getD j []) < cosineSim q (docs.getD i []) ∨
        (cosineSim q (docs.getD i []) = cosineSim q (docs.getD j []) ∧ j < i)) := by
  have hqne : q ≠ [] := by
    intro h
    rw [h, norm2Q_nil] at hq
    exact lt_irrefl 0 hq
  have hpair := rankBy_argCmp_pairwise q docs hq hnorm
  have hperm := perm_rankBy (argCmp q docs) (List.range docs.length)
  have hnodup : (rankBy (argCmp q docs) (List.range docs.length)).Nodup :=
    hperm.nodup_iff.mpr (List.nodup_range _)
  have hss : similarity_search q docs k
      = (rankBy (argCmp q docs) (List.range docs.length)).take k := by
    unfold similarity_search
    rw [if_neg (by push_neg; exact ⟨hqne, hdocs⟩)]
  rw [hss]
  refine List.Pairwise.sublist (List.take_sublist _ _) ?_
  refine (hpair.and hnodup).imp ?_
  rintro i j ⟨h | ⟨h, hle⟩, hne⟩
  · exact Or.inl h
  · exact Or.inr ⟨h, lt_of_le_of_ne hle (Ne.symm hne)⟩

/-- C4 witness (for the amended claim): the tied candidates `[[1], [1]]`. -/
theorem C4_witness :
    0 < norm2Q ([1] : List ℚ) ∧
    (similarity_search [1] [[1], [1]] 5).Pairwise
      (fun i j => cosineSim [1] (([[1], [1]] : List (List ℚ)).getD j [])
          < cosineSim [1] (([[1], [1]] : List (List ℚ)).getD i []) ∨
        (cosineSim [1] (([[1], [1]] : List (List ℚ)).getD i [])
            = cosineSim [1] (([[1], [1]] : List (List ℚ)).getD j []) ∧ j < i)) := by
  have h1 : 0 < norm2Q ([1] : List ℚ) := by norm_num [norm2Q, dotQ]
  have h2 : ∀ d ∈ ([[1], [1]] : List (List ℚ)), 0 < norm2Q d := by
    intro d hd
    simp only [List.mem_cons, List.not_mem_nil, or_false] at hd
    rcases hd with rfl | rfl <;> norm_num [norm2Q, dotQ]
  exact ⟨h1, C4_ties_larger_index_first [1] [[1], [1]] 5 h1 (by simp) h2⟩

/-! ### Lemmas: the chatbot awaiting state -/

theorem awaitingOK_askExerciseFlow (s : ChatSession) (intent : String)
    (entities : Option String × Option String) (h : awaitingOK s) :
    awaitingOK (askExerciseFlow s intent entities).2 := by
  unfold askExerciseFlow
  split
  · exact h
  · exact Or.inr (Or.inr rfl)
  · split
    · exact Or.inr (Or.inr rfl)
    · exact Or.inr (Or.inl rfl)

theorem awaitingOK_get_response (s0 : ChatSession) (m : List Char) (h : awaitingOK s0) :
    awaitingOK (get_response s0 m).2 := by
  simp only [get_response]
  by_cases h1 : s0.awaiting = some "body_part" ∧ (detect_intent m).2.1.isSome = true
  · rw [if_pos h1]
    exact Or.inr (Or.inr rfl)
  rw [if_neg h1]
  by_cases h2 : s0.awaiting = some "condition" ∧ (detect_intent m).2.2.isSome = true
  · rw [if_pos h2]
    exact Or.inl rfl
  rw [if_neg h2]
  by_cases h3 : (detect_intent m).1 = "greet"
  · rw [if_pos h3]
    exact h
  rw [if_neg h3]
  by_cases h4 : (detect_intent m).1 = "goodbye"
  · rw [if_pos h4]
    exact h
  rw [if_neg h4]
  by_cases h5 : (detect_intent m).1 = "thanks"
  · rw [if_pos h5]
    exact h
  rw [if_neg h5]
  by_cases h6 : (detect_intent m).1 = "bot_challenge"
  · rw [if_pos h6]
    exact h
  rw [if_neg h6]
  by_cases h7 : (detect_intent m).1 = "request_help"
  · rw [if_pos h7]
    exact h
  rw [if_neg h7]
  by_cases h8 : (detect_intent m).1 = "ask_physiotherapy_info"
  · rw [if_pos h8]
    exact h
  rw [if_neg h8]
  by_cases h9 : (detect_intent m).1 = "ask_exercise"
  · rw [if_pos h9]
    exact awaitingOK_askExerciseFlow _ _ _ h
  rw [if_neg h9]
  by_cases h10 : (detect_intent m).2.1.isSome = true ∨ (detect_intent m).2.2.isSome = true
  · rw [if_pos h10]
    exact awaitingOK_askExerciseFlow _ _ _ h
  rw [if_neg h10]
  exact h

/-! ### Claim C7 -/

set_option maxRecDepth 4096 in
/-- C7: from a fresh session, the single message `"I have knee pain"` is
parsed as `ask_exercise` with both entities (`knee`, `pain`) extracted from
the one utterance; the reply is the complete knee/pain exercise
recommendation (it begins `"Here are some recommended exercises for pain in
the knee"`), and afterwards both slots are reset to empty (and no awaiting
state is pending). -/
theorem C7_knee_pain_single_turn :
    get_response freshSession ("I have knee pain".toList)
      = ([recommend_exercises (some "knee") (some "pain")],
         { last_intent := some "ask_exercise", body_part := none, condition := none,
           awaiting := none }) ∧
    (recommend_exercises (some "knee") (some "pain")).toList.take 56
      = "Here are some recommended exercises for pain in the knee".toList := by
  constructor
  · decide
  · decide

/-! ### Claim C9 -/

/-- C9: along every conversation started from a fresh session, the `awaiting`
field of the session holds at most one active slot-fill state, always one of
`none` (idle), `some "body_part"`, or `some "condition"` — `get_response`
never stores any other value. -/
theorem C9_awaiting_invariant (messages : List (List Char)) :
    (runSession messages).awaiting = none ∨
    (runSession messages).awaiting = some "body_part" ∨
    (runSession messages).awaiting = some "condition" := by
  suffices h : ∀ (s : ChatSession), awaitingOK s →
      awaitingOK (messages.foldl (fun s m => (get_response s m).2) s) by
    exact h freshSession (Or.inl rfl)
  induction messages with
  | nil => exact fun s hs => hs
  | cons m ms ih =>
    intro s hs
    exact ih _ (awaitingOK_get_response s m hs)

end MixedChatbot
